import Mathlib

/-!
Shallow embedding of simple_server.py, the single source file of the
ESP32-IDF-HTTP-Server repository, together with theorems checking the
natural-language specification against it.

Modelling conventions:
  * HTTP requests are a path, an association list of headers and a body
    given as a list of byte values.  Header lookup is case-insensitive,
    matching the behaviour of the Python http.server header mapping.
  * Python exceptions raised inside the handler (ValueError from int and
    float, UnicodeDecodeError from decode) are modelled with Except.
  * Python float values are modelled as exact rationals.  The parser
    pyFloat covers finite decimal literals with optional sign, fraction
    and exponent; the special spellings inf and nan and underscore digit
    grouping accepted by Python are not modelled, and whitespace
    stripping uses the ASCII whitespace set.
  * The class variable message_count is modelled as explicit state of
    type Nat threaded through the handlers; its initial value 0 mirrors
    the class-level initializer.
-/

/-- ASCII lower-casing of a character, used for case-insensitive header
names.  Header names in the source are ASCII. -/
def lowerChar (c : Char) : Char :=
  if 65 ≤ c.toNat ∧ c.toNat ≤ 90 then Char.ofNat (c.toNat + 32) else c

/-- ASCII lower-casing of a string. -/
def lowerStr (s : String) : String := String.mk (s.data.map lowerChar)

/-- Case-insensitive header lookup, returning the first matching value,
modelling self.headers.get(name) without a default. -/
def headerGet (hs : List (String × String)) (name : String) : Option String :=
  match hs with
  | [] => none
  | p :: t => if lowerStr p.1 = lowerStr name then some p.2 else headerGet t name

/-- Whitespace test used by the Python int and float parsers and by
str.strip; restricted to the ASCII whitespace characters. -/
def isSpaceChar (c : Char) : Bool := decide (c.toNat ∈ [9, 10, 11, 12, 13, 32])

/-- Drop elements satisfying p from both ends of a list, modelling
str.strip restricted to the relevant character set. -/
def stripEnds {α : Type} (p : α → Bool) (l : List α) : List α :=
  ((l.dropWhile p).reverse.dropWhile p).reverse

/-- Decimal digit test on characters. -/
def isDigitChar (c : Char) : Bool := decide (48 ≤ c.toNat ∧ c.toNat ≤ 57)

/-- Value of a list of decimal digit characters. -/
def natOfDigits (cs : List Char) : Nat :=
  cs.foldl (fun a c => 10 * a + (c.toNat - 48)) 0

/-- Model of the Python builtin int applied to a string: optional
surrounding whitespace, an optional sign, and a nonempty digit run.
Underscore digit grouping is not modelled.  Returns none where Python
raises ValueError. -/
def pyInt (s : String) : Option Int :=
  match stripEnds isSpaceChar s.data with
  | '+' :: ds =>
    if ds ≠ [] ∧ ds.all isDigitChar then some (natOfDigits ds : Int) else none
  | '-' :: ds =>
    if ds ≠ [] ∧ ds.all isDigitChar then some (-(natOfDigits ds : Int)) else none
  | ds =>
    if ds ≠ [] ∧ ds.all isDigitChar then some (natOfDigits ds : Int) else none

/-- Exact decimal value m times 10 to the e, the model of the float
values handled by the server.  The parsed uptime literals and the
division by 1000 are exactly representable in this form. -/
structure Dec where
  m : Int
  e : Int
  deriving DecidableEq, Repr

/-- Rational value of an exact decimal. -/
def Dec.toRat (d : Dec) : ℚ := (d.m : ℚ) * (10 : ℚ) ^ d.e

/-- Exponent part of a float literal: empty, or e or E followed by an
optional sign and a nonempty digit run. -/
def pyExpPart : List Char → Option Int
  | [] => some 0
  | c :: rest =>
    if c = 'e' ∨ c = 'E' then
      match rest with
      | '+' :: ds =>
        if ds ≠ [] ∧ ds.all isDigitChar then some (natOfDigits ds : Int) else none
      | '-' :: ds =>
        if ds ≠ [] ∧ ds.all isDigitChar then some (-(natOfDigits ds : Int)) else none
      | ds =>
        if ds ≠ [] ∧ ds.all isDigitChar then some (natOfDigits ds : Int) else none
    else none

/-- Powers of ten on naturals. -/
def pow10 : Nat → Nat
  | 0 => 1
  | k + 1 => 10 * pow10 k

/-- Unsigned part of a float literal: digits with an optional fraction,
or a leading dot with digits, followed by an optional exponent. -/
def pyFloatMag (cs : List Char) : Option Dec :=
  let ip := cs.takeWhile isDigitChar
  match cs.dropWhile isDigitChar with
  | '.' :: r2 =>
    let fp := r2.takeWhile isDigitChar
    if ip = [] ∧ fp = [] then none
    else
      match pyExpPart (r2.dropWhile isDigitChar) with
      | some ex =>
        some { m := (natOfDigits ip * pow10 fp.length + natOfDigits fp : Int),
               e := ex - (fp.length : Int) }
      | none => none
  | r1 =>
    if ip = [] then none
    else
      match pyExpPart r1 with
      | some ex => some { m := (natOfDigits ip : Int), e := ex }
      | none => none

/-- Model of the Python builtin float applied to a string, as an exact
decimal.  Returns none where Python raises ValueError. -/
def pyFloat (s : String) : Option Dec :=
  match stripEnds isSpaceChar s.data with
  | '+' :: rest => pyFloatMag rest
  | '-' :: rest => (pyFloatMag rest).map (fun d => { d with m := -d.m })
  | cs => pyFloatMag cs

/-- Exact division of a decimal by 1000, the uptime unit conversion. -/
def div1000 (d : Dec) : Dec := { d with e := d.e - 3 }

/-- The zero value taken by uptime_seconds when the header is absent. -/
def decZero : Dec := { m := 0, e := 0 }

/-- Rounding of an integer quotient to the nearest integer, ties to
even: the quantity rounded is a divided by p, with p positive. -/
def roundHalfEven (a p : Int) : Int :=
  let f : Int := Int.fdiv a p
  let r : Int := a - f * p
  if 2 * r < p then f
  else if p < 2 * r then f + 1
  else if f % 2 = 0 then f else f + 1

/-- Rounding of d times 1000 to the nearest integer, ties to even, as
performed by the Python fixed-point format with 3 digits. -/
def rnd3 (d : Dec) : Int :=
  if 0 ≤ d.e + 3 then d.m * (pow10 (d.e + 3).toNat : Int)
  else roundHalfEven d.m (pow10 (-(d.e + 3)).toNat : Int)

/-- Left pad of the fractional part to width 3. -/
def padTo3 (m : Nat) : String :=
  if m < 10 then "00" ++ toString m
  else if m < 100 then "0" ++ toString m
  else toString m

/-- Model of the Python format specifier .3f on the exact decimal
value: three digits after the decimal point.  A negative value that
rounds to zero loses its sign here, unlike Python. -/
def formatFixed3 (d : Dec) : String :=
  let n := rnd3 d
  let a := n.natAbs
  (if n < 0 then "-" else "") ++ toString (a / 1000) ++ "." ++ padTo3 (a % 1000)

/-- Continuation byte test for UTF-8. -/
def isContByte (b : Nat) : Bool := decide (128 ≤ b ∧ b ≤ 191)

/-- Strict UTF-8 decoder from bytes to code points, modelling the Python
bytes.decode with the utf-8 codec: rejects stray continuation bytes,
overlong encodings, surrogate code points and values above 0x10FFFF.
Returns none where Python raises UnicodeDecodeError. -/
def utf8Decode : List Nat → Option (List Nat)
  | [] => some []
  | b :: rest =>
    if b ≤ 0x7F then (utf8Decode rest).map (fun cs => b :: cs)
    else if b ≤ 0xC1 then none
    else if b ≤ 0xDF then
      match rest with
      | b1 :: rest2 =>
        if isContByte b1 then
          (utf8Decode rest2).map (fun cs => ((b - 0xC0) * 64 + (b1 - 0x80)) :: cs)
        else none
      | [] => none
    else if b ≤ 0xEF then
      match rest with
      | b1 :: b2 :: rest2 =>
        if isContByte b1 && isContByte b2 then
          let cp := (b - 0xE0) * 4096 + (b1 - 0x80) * 64 + (b2 - 0x80)
          if cp < 0x800 then none
          else if 0xD800 ≤ cp ∧ cp ≤ 0xDFFF then none
          else (utf8Decode rest2).map (fun cs => cp :: cs)
        else none
      | _ => none
    else if b ≤ 0xF4 then
      match rest with
      | b1 :: b2 :: b3 :: rest2 =>
        if isContByte b1 && isContByte b2 && isContByte b3 then
          let cp := (b - 0xF0) * 262144 + (b1 - 0x80) * 4096 + (b2 - 0x80) * 64 + (b3 - 0x80)
          if cp < 0x10000 then none
          else if 0x10FFFF < cp then none
          else (utf8Decode rest2).map (fun cs => cp :: cs)
        else none
      | _ => none
    else none

/-- Split a list of code points on the line feed code point, modelling
the Python str.split with a newline separator: an empty input yields a
single empty line, and a trailing separator yields a trailing empty
line. -/
def splitNl : List Nat → List (List Nat)
  | [] => [[]]
  | c :: rest =>
    if c = 10 then [] :: splitNl rest
    else
      match splitNl rest with
      | [] => [[c]]
      | l :: ls => (c :: l) :: ls

/-- Whitespace test on code points, ASCII subset, used for the strip of
matched lines. -/
def isWsCp (cp : Nat) : Bool := decide (cp ∈ [9, 10, 11, 12, 13, 32])

/-- ASCII lower-casing of a code point, modelling str.lower for the
characters relevant to the keyword scan. -/
def lowerCp (cp : Nat) : Nat := if 65 ≤ cp ∧ cp ≤ 90 then cp + 32 else cp

/-- Code points of a Lean string, used for the keyword constants and to
build ASCII request bodies. -/
def strCps (s : String) : List Nat := s.data.map Char.toNat

/-- Decidable check that n occurs at the start of h. -/
def isPref {α : Type} [DecidableEq α] : List α → List α → Bool
  | [], _ => true
  | _ :: _, [] => false
  | a :: as, b :: bs => if a = b then isPref as bs else false

/-- Decidable check that n occurs contiguously anywhere inside h,
modelling the Python membership test on strings. -/
def isSub {α : Type} [DecidableEq α] (n : List α) : List α → Bool
  | [] => n.isEmpty
  | b :: t => isPref n (b :: t) || isSub n t

/-- Substring test on strings, used to state facts about response
bodies. -/
def strContains (hay needle : String) : Bool := isSub needle.data hay.data

/-- Test that s starts with p, used for the custom header filter, which
in the source is case-sensitive. -/
def strStarts (s p : String) : Bool := isPref p.data s.data

/-- The keyword list of the changing-data scan, as code point lists. -/
def keywords : List (List Nat) :=
  [strCps "counter", strCps "uptime", strCps "random", strCps "hash",
   strCps "heap", strCps "message number"]

/-- A line matches when its lower-cased form contains one of the
keywords, modelling the any expression of the scan loop. -/
def lineMatches (line : List Nat) : Bool :=
  keywords.any (fun kw => isSub kw (line.map lowerCp))

/-- The changing_data list built by the scan loop: matching lines of the
payload, stripped, in payload order. -/
def changingOf (payload : List Nat) : List (List Nat) :=
  ((splitNl payload).filter lineMatches).map (stripEnds isWsCp)

/-- An HTTP request as seen by the handler: path, headers and raw body
bytes available on the stream. -/
structure Request where
  path : String
  headers : List (String × String)
  body : List Nat
  deriving DecidableEq, Repr

/-- An HTTP response: status code, content type and body text. -/
structure Response where
  status : Nat
  contentType : String
  body : String
  deriving DecidableEq, Repr

/-- Python exceptions that can escape the POST handler. -/
inductive PyError where
  | valueErrorInt : String → PyError
  | unicodeDecodeError : PyError
  | valueErrorFloat : String → PyError
  deriving DecidableEq, Repr

/-- The diagnostic record printed by the POST handler. -/
structure PostLog where
  serverCount : Nat
  timestamp : String
  esp32Counter : String
  uptimeFormatted : String
  clientPath : String
  userAgent : String
  esp32Headers : List (String × String)
  payload : List Nat
  msgLength : Nat
  changingData : List (List Nat)
  loggedChanging : List (List Nat)
  deriving DecidableEq, Repr

/-- The record printed by the GET handler. -/
structure GetLog where
  clientPath : String
  timestamp : String
  deriving DecidableEq, Repr

/-- The echoed device counter: header value or the sentinel. -/
def esp32CounterOf (req : Request) : String :=
  (headerGet req.headers "X-ESP32-Message-Counter").getD "N/A"

/-- The raw uptime header value: header value or the sentinel. -/
def esp32UptimeOf (req : Request) : String :=
  (headerGet req.headers "X-ESP32-Uptime-MS").getD "N/A"

/-- The conditional expression computing uptime_seconds: parse and
divide by 1000 when the value is not the sentinel, else zero.  The
error case models the ValueError escaping from float. -/
def uptimeSecondsOf (u : String) : Except PyError Dec :=
  if u ≠ "N/A" then
    match pyFloat u with
    | some q => Except.ok (div1000 q)
    | none => Except.error (PyError.valueErrorFloat u)
  else Except.ok decZero

/-- The content length computation: absent header defaults to the
integer 0, a present header is parsed by int and a parse failure is the
ValueError escaping from int. -/
def contentLengthOf (req : Request) : Except PyError Int :=
  match headerGet req.headers "Content-Length" with
  | none => Except.ok 0
  | some s =>
    match pyInt s with
    | some n => Except.ok n
    | none => Except.error (PyError.valueErrorInt s)

/-- Model of rfile.read applied to the declared length: a nonnegative
count takes that many bytes from the stream, a negative count reads the
whole stream. -/
def readBody (n : Int) (stream : List Nat) : List Nat :=
  if n < 0 then stream else stream.take n.toNat

/-- The response text, a transcription of the response_message f-string;
the grouping of the appends is semantically irrelevant. -/
def respBody (ec : String) (n : Nat) (ts : String) (us : String) : String :=
  ("✅ Message #" ++ ec ++ " received successfully by your computer!\n📊 ") ++
  ("Server has now received " ++ toString n ++ " total messages.") ++
  ("\n⏰ Received at: " ++ ts ++ "\n🎯 ") ++
  ("ESP32 uptime: " ++ us ++ " seconds")

/-- The 200 response sent at the end of do_POST. -/
def mkPostResp (ec : String) (n : Nat) (ts : String) (u : Dec) : Response :=
  { status := 200, contentType := "text/plain", body := respBody ec n ts (formatFixed3 u) }

/-- The diagnostic record assembled by the print statements of
do_POST. -/
def mkPostLog (n : Nat) (ts : String) (req : Request) (payload : List Nat) (u : Dec) : PostLog :=
  { serverCount := n
    timestamp := ts
    esp32Counter := esp32CounterOf req
    uptimeFormatted := formatFixed3 u
    clientPath := req.path
    userAgent := (headerGet req.headers "User-Agent").getD "Unknown"
    esp32Headers := req.headers.filter (fun p => strStarts p.1 "X-ESP32-")
    payload := payload
    msgLength := payload.length
    changingData := changingOf payload
    loggedChanging := (changingOf payload).take 5 }

/-- The body of do_POST after the counter increment, with the three
fallible steps in source order: content length parse, body decode,
uptime parse. -/
def doPostResult (ts : String) (req : Request) (n : Nat) :
    Except PyError (PostLog × Response) :=
  match contentLengthOf req with
  | Except.error e => Except.error e
  | Except.ok cl =>
    match utf8Decode (readBody cl req.body) with
    | none => Except.error PyError.unicodeDecodeError
    | some payload =>
      match uptimeSecondsOf (esp32UptimeOf req) with
      | Except.error e => Except.error e
      | Except.ok u =>
        Except.ok (mkPostLog n ts req payload u, mkPostResp (esp32CounterOf req) n ts u)

/-- Model of do_POST: the counter increment is the first action and is
kept even when a later step raises. -/
def do_POST (ts : String) (req : Request) (count : Nat) :
    Nat × Except PyError (PostLog × Response) :=
  (count + 1, doPostResult ts req (count + 1))

/-- The static HTML status page of do_GET, a transcription of the
triple-quoted f-string. -/
def htmlPage (ts : String) : String :=
  ("\n        <html>\n        <body>\n            <h1>🎉 ESP32 HTTP Server is Running!</h1>\n            <p>✅ Server is ready to receive ESP32 messages</p>\n            <p>⏰ Current time: ") ++ ts ++
  ("</p>\n            <p>💡 Check the console for POST messages from your ESP32</p>\n        </body>\n        </html>\n        ")

/-- Model of do_GET: logs path and timestamp and answers with the status
page; the counter is untouched. -/
def do_GET (ts : String) (req : Request) (count : Nat) :
    Nat × (GetLog × Response) :=
  (count,
    ({ clientPath := req.path, timestamp := ts },
     { status := 200, contentType := "text/html", body := htmlPage ts }))

/-- The class-level initializer of message_count. -/
def initialCount : Nat := 0

/-- A request event handled by the server: a POST or a GET, each with
the wall-clock timestamp string observed during handling. -/
inductive Event where
  | post : String → Request → Event
  | get : String → Request → Event

/-- Effect of one event on the shared counter. -/
def applyEvent (c : Nat) : Event → Nat
  | Event.post ts r => (do_POST ts r c).1
  | Event.get ts r => (do_GET ts r c).1

/-- Results of handling a list of POST requests sequentially starting
from a given counter value. -/
def runPosts : Nat → List (String × Request) → List (Except PyError (PostLog × Response))
  | _, [] => []
  | c, p :: ps => (do_POST p.1 p.2 c).2 :: runPosts (do_POST p.1 p.2 c).1 ps

/-- Projection of a POST outcome to what the client can observe. -/
def respOf (r : Nat × Except PyError (PostLog × Response)) : Except PyError Response :=
  r.2.map Prod.snd

/-- Removal of every occurrence of a header name, used to compare a
request carrying the sentinel value with the same request without the
header. -/
def removeHeader (bad : String) : List (String × String) → List (String × String)
  | [] => []
  | p :: t => if lowerStr p.1 = lowerStr bad then removeHeader bad t else p :: removeHeader bad t

/-- The request with every occurrence of the uptime header removed. -/
def dropUptimeHeader (req : Request) : Request :=
  { req with headers := removeHeader "X-ESP32-Uptime-MS" req.headers }

/-! Helper lemmas about strings, occurrence testing and the handler. -/

/-- Appending strings appends their character lists. -/
theorem data_append (a b : String) : (a ++ b).data = a.data ++ b.data := by
  cases a
  cases b
  rfl

/-- A list is a prefix of itself followed by anything. -/
theorem isPref_append_self {α : Type} [DecidableEq α] (n r : List α) :
    isPref n (n ++ r) = true := by
  induction n with
  | nil => rfl
  | cons a as ih => simp [isPref, ih]

/-- The empty list occurs in every list. -/
theorem isSub_nil_left {α : Type} [DecidableEq α] (h : List α) :
    isSub ([] : List α) h = true := by
  cases h with
  | nil => rfl
  | cons b t => simp [isSub, isPref]

/-- A prefix occurrence is an occurrence. -/
theorem isSub_of_isPref {α : Type} [DecidableEq α] {n h : List α}
    (hp : isPref n h = true) : isSub n h = true := by
  cases h with
  | nil =>
    cases n with
    | nil => rfl
    | cons a as => simp [isPref] at hp
  | cons b t => simp [isSub, hp]

/-- A prefix stays a prefix after extending on the right. -/
theorem isPref_extend {α : Type} [DecidableEq α] {n h : List α}
    (hp : isPref n h = true) (h2 : List α) : isPref n (h ++ h2) = true := by
  induction n generalizing h with
  | nil => rfl
  | cons a as ih =>
    cases h with
    | nil => simp [isPref] at hp
    | cons b t =>
      simp only [isPref] at hp
      by_cases hab : a = b
      · subst hab
        simp only [if_pos rfl] at hp
        simp only [List.cons_append, isPref, if_pos rfl]
        exact ih hp
      · rw [if_neg hab] at hp
        exact Bool.noConfusion hp

/-- An occurrence survives extending the haystack on the right. -/
theorem isSub_extend_right {α : Type} [DecidableEq α] {n h : List α}
    (hs : isSub n h = true) (h2 : List α) : isSub n (h ++ h2) = true := by
  induction h with
  | nil =>
    cases n with
    | nil => simpa using isSub_nil_left h2
    | cons a as => simp [isSub] at hs
  | cons b t ih =>
    simp only [isSub, Bool.or_eq_true] at hs
    rcases hs with hp | hsub
    · simp only [List.cons_append, isSub, Bool.or_eq_true]
      exact Or.inl (isPref_extend hp h2)
    · simp only [List.cons_append, isSub, Bool.or_eq_true]
      exact Or.inr (ih hsub)

/-- An occurrence survives extending the haystack on the left. -/
theorem isSub_extend_left {α : Type} [DecidableEq α] {n h : List α}
    (hs : isSub n h = true) (h0 : List α) : isSub n (h0 ++ h) = true := by
  induction h0 with
  | nil => simpa using hs
  | cons b t ih =>
    simp only [List.cons_append, isSub, Bool.or_eq_true]
    exact Or.inr ih

/-- A list occurs in any list built around it. -/
theorem isSub_parts {α : Type} [DecidableEq α] (p n s : List α) :
    isSub n (p ++ (n ++ s)) = true :=
  isSub_extend_left (isSub_of_isPref (isPref_append_self n s)) p

/-- Sufficient condition for the substring test on strings. -/
theorem strContains_intro (hay needle : String) (l1 l2 : List Char)
    (h : hay.data = l1 ++ (needle.data ++ l2)) : strContains hay needle = true := by
  unfold strContains
  rw [h]
  exact isSub_parts l1 needle.data l2

/-- The prefix test agrees with the existence of a completion. -/
theorem isPref_iff {α : Type} [DecidableEq α] (n h : List α) :
    isPref n h = true ↔ ∃ r, h = n ++ r := by
  induction n generalizing h with
  | nil => simp [isPref]
  | cons a as ih =>
    cases h with
    | nil => simp [isPref]
    | cons b t =>
      by_cases hab : a = b
      · subst hab
        simp [isPref, ih]
      · constructor
        · intro hp
          simp only [isPref, if_neg hab] at hp
          exact Bool.noConfusion hp
        · rintro ⟨r, hr⟩
          rw [List.cons_append] at hr
          injection hr with h1 _
          exact absurd h1.symm hab

/-- The occurrence test agrees with the existence of a decomposition of
the haystack around the needle. -/
theorem isSub_iff {α : Type} [DecidableEq α] (n h : List α) :
    isSub n h = true ↔ ∃ l1 l2, h = l1 ++ (n ++ l2) := by
  induction h with
  | nil =>
    constructor
    · intro hs
      have hn : n = [] := by
        cases n with
        | nil => rfl
        | cons a as => simp [isSub] at hs
      subst hn
      exact ⟨[], [], rfl⟩
    · rintro ⟨l1, l2, he⟩
      rcases List.append_eq_nil.mp he.symm with ⟨h1, h23⟩
      rcases List.append_eq_nil.mp h23 with ⟨h2, _⟩
      subst h2
      rfl
  | cons b t ih =>
    simp only [isSub, Bool.or_eq_true]
    constructor
    · rintro (hp | hs)
      · rcases (isPref_iff n (b :: t)).mp hp with ⟨r, hr⟩
        exact ⟨[], r, by simpa using hr⟩
      · rcases ih.mp hs with ⟨l1, l2, he⟩
        exact ⟨b :: l1, l2, by simp [he]⟩
    · rintro ⟨l1, l2, he⟩
      cases l1 with
      | nil =>
        exact Or.inl ((isPref_iff n (b :: t)).mpr ⟨l2, by simpa using he⟩)
      | cons c l1t =>
        rw [List.cons_append] at he
        injection he with _ h2
        exact Or.inr (ih.mpr ⟨l1t, l2, h2⟩)

/-- Evaluation of the fixed-point format at zero. -/
theorem formatFixed3_zero : formatFixed3 decZero = "0.000" := by decide

/-- Inversion of a successful run of the POST body: all three fallible
steps succeeded and the outputs are built from their results. -/
theorem doPostResult_ok {ts : String} {req : Request} {n : Nat}
    {log : PostLog} {resp : Response}
    (h : doPostResult ts req n = Except.ok (log, resp)) :
    ∃ cl payload u,
      contentLengthOf req = Except.ok cl ∧
      utf8Decode (readBody cl req.body) = some payload ∧
      uptimeSecondsOf (esp32UptimeOf req) = Except.ok u ∧
      log = mkPostLog n ts req payload u ∧
      resp = mkPostResp (esp32CounterOf req) n ts u := by
  unfold doPostResult at h
  split at h
  · exact absurd h (by simp)
  · rename_i cl hcl
    split at h
    · exact absurd h (by simp)
    · rename_i payload hdec
      split at h
      · exact absurd h (by simp)
      · rename_i u hu
        injection h with hpair
        exact ⟨cl, payload, u, hcl, hdec, hu,
          (congrArg Prod.fst hpair).symm, (congrArg Prod.snd hpair).symm⟩

/-- Looking up a different name is unaffected by removing a header. -/
theorem headerGet_remove_ne (bad nm : String) (hs : List (String × String))
    (hne : lowerStr nm ≠ lowerStr bad) :
    headerGet (removeHeader bad hs) nm = headerGet hs nm := by
  induction hs with
  | nil => rfl
  | cons p t ih =>
    by_cases hpb : lowerStr p.1 = lowerStr bad
    · have hpn : ¬ lowerStr p.1 = lowerStr nm := by
        intro hc
        exact hne (hc.symm.trans hpb)
      rw [show removeHeader bad (p :: t) = removeHeader bad t from by
        simp [removeHeader, hpb]]
      rw [ih]
      simp [headerGet, hpn]
    · by_cases hpn : lowerStr p.1 = lowerStr nm
      · simp [removeHeader, headerGet, hpn, hne]
      · simp [removeHeader, headerGet, hpb, hpn, ih]

/-- Looking up the removed name yields nothing. -/
theorem headerGet_remove_self (bad : String) (hs : List (String × String)) :
    headerGet (removeHeader bad hs) bad = none := by
  induction hs with
  | nil => rfl
  | cons p t ih =>
    by_cases hpb : lowerStr p.1 = lowerStr bad
    · simp [removeHeader, hpb, ih]
    · simp [removeHeader, headerGet, hpb, ih]

/-- Two requests that agree on content length, body, device counter and
uptime value produce the same client-observable POST outcome. -/
theorem doPost_map_snd_congr (ts : String) (n : Nat) (r1 r2 : Request)
    (hcl : contentLengthOf r1 = contentLengthOf r2)
    (hb : r1.body = r2.body)
    (hec : esp32CounterOf r1 = esp32CounterOf r2)
    (hu : esp32UptimeOf r1 = esp32UptimeOf r2) :
    (doPostResult ts r1 n).map Prod.snd = (doPostResult ts r2 n).map Prod.snd := by
  cases hx : contentLengthOf r2 with
  | error e => simp [doPostResult, hcl, hx]
  | ok cl =>
    cases hy : utf8Decode (readBody cl r2.body) with
    | none => simp [doPostResult, hcl, hb, hx, hy]
    | some payload =>
      cases hz : uptimeSecondsOf (esp32UptimeOf r2) with
      | error e => simp [doPostResult, hcl, hb, hu, hx, hy, hz]
      | ok u => simp [doPostResult, hcl, hb, hec, hu, hx, hy, hz, Except.map]

/-- On any successful POST whose uptime value is the sentinel, both the
log and the response report 0.000 seconds. -/
theorem uptime_na_fields {ts : String} {req : Request} {c : Nat}
    {log : PostLog} {resp : Response}
    (hna : esp32UptimeOf req = "N/A")
    (h : (do_POST ts req c).2 = Except.ok (log, resp)) :
    log.uptimeFormatted = "0.000" ∧
    strContains resp.body "ESP32 uptime: 0.000 seconds" = true := by
  obtain ⟨cl, payload, u, hcl, hdec, hu, hlog, hresp⟩ := doPostResult_ok h
  rw [hna, show uptimeSecondsOf "N/A" = Except.ok decZero from rfl] at hu
  injection hu with h0
  subst h0
  constructor
  · rw [hlog]
    simp [mkPostLog, formatFixed3_zero]
  · rw [hresp]
    apply strContains_intro _ _
      ((("✅ Message #" ++ esp32CounterOf req ++ " received successfully by your computer!\n📊 ") ++
        ("Server has now received " ++ toString (c + 1) ++ " total messages.") ++
        ("\n⏰ Received at: " ++ ts ++ "\n🎯 ")).data) []
    have hsplit : ("ESP32 uptime: 0.000 seconds" : String).data =
        ("ESP32 uptime: " : String).data ++
          ((("0.000" : String).data) ++ (" seconds" : String).data) := rfl
    rw [hsplit]
    simp [mkPostResp, respBody, formatFixed3_zero, data_append, List.append_assoc]

/-- The i-th outcome of a sequence of POST requests carries the counter
value c plus i plus one, in the log and in the response text. -/
theorem runPosts_get (ps : List (String × Request)) :
    ∀ (c i : Nat) (log : PostLog) (resp : Response),
      (runPosts c ps).get? i = some (Except.ok (log, resp)) →
      log.serverCount = c + i + 1 ∧
      strContains resp.body
        ("Server has now received " ++ toString (c + i + 1) ++ " total messages.") = true := by
  induction ps with
  | nil =>
    intro c i log resp h
    simp [runPosts] at h
  | cons p ps ih =>
    intro c i log resp h
    cases i with
    | zero =>
      simp only [runPosts, List.get?] at h
      injection h with h
      obtain ⟨cl, payload, u, hcl, hdec, hu, hlog, hresp⟩ := doPostResult_ok h
      constructor
      · rw [hlog]
        simp [mkPostLog]
      · rw [hresp]
        apply strContains_intro _ _
          (("✅ Message #" ++ esp32CounterOf p.2 ++ " received successfully by your computer!\n📊 ").data)
          ((("\n⏰ Received at: " ++ p.1 ++ "\n🎯 ") ++
            ("ESP32 uptime: " ++ formatFixed3 u ++ " seconds")).data)
        simp [mkPostResp, respBody, data_append, List.append_assoc]
    | succ j =>
      simp only [runPosts, List.get?] at h
      have hres := ih ((do_POST p.1 p.2 c).1) j log resp h
      have harith : (do_POST p.1 p.2 c).1 + j + 1 = c + (j + 1) + 1 := by
        show c + 1 + j + 1 = c + (j + 1) + 1
        omega
      rw [harith] at hres
      exact hres

/-- Dividing the exact decimal by 1000 divides its rational value by
1000, so the unit conversion of the handler is exact. -/
theorem toRat_div1000 (d : Dec) : (div1000 d).toRat = d.toRat / 1000 := by
  unfold Dec.toRat div1000
  rw [zpow_sub₀ (by norm_num : (10 : ℚ) ≠ 0)]
  have h3 : (10 : ℚ) ^ (3 : ℤ) = 1000 := by norm_num
  rw [h3]
  ring

/-! Requests used as concrete instances in the claim theorems. -/

/-- A POST request with no headers and an empty body. -/
def reqEmpty : Request := { path := "/", headers := [], body := [] }

/-- A POST request declaring a zero content length with an empty body. -/
def reqCL0 : Request := { path := "/", headers := [("Content-Length", "0")], body := [] }

/-- A POST request with a non-numeric content length header. -/
def reqBadCL : Request := { path := "/", headers := [("Content-Length", "abc")], body := [] }

/-- A POST request whose declared body byte is not valid UTF-8. -/
def reqBadBody : Request := { path := "/", headers := [("Content-Length", "1")], body := [255] }

/-- A POST request with a non-numeric uptime header. -/
def reqBadUptime : Request := { path := "/", headers := [("X-ESP32-Uptime-MS", "xyz")], body := [] }

/-- A POST request with a content length smaller than the stream. -/
def reqCL2 : Request := { path := "/", headers := [("Content-Length", "2")], body := [97, 98, 99] }

/-! Claim theorems. -/

/-- C1: the server counter starts at zero, every POST increments it by
exactly one as the first action even when parsing later fails, no
operation decreases it, and after a sequence of POST requests the i-th
successful response reports the total i plus one both in the log record
and in the response text. -/
theorem c1_server_counter_invariant :
    initialCount = 0 ∧
    (∀ (ts : String) (req : Request) (c : Nat), (do_POST ts req c).1 = c + 1) ∧
    (∀ (c : Nat) (e : Event), c ≤ applyEvent c e) ∧
    (∀ (ps : List (String × Request)) (i : Nat) (log : PostLog) (resp : Response),
      (runPosts 0 ps).get? i = some (Except.ok (log, resp)) →
      log.serverCount = i + 1 ∧
      strContains resp.body
        ("Server has now received " ++ toString (i + 1) ++ " total messages.") = true) := by
  refine ⟨rfl, fun ts req c => rfl, ?_, ?_⟩
  · intro c e
    cases e with
    | post ts r => exact Nat.le_succ c
    | get ts r => exact Nat.le_refl c
  · intro ps i log resp h
    have hres := runPosts_get ps 0 i log resp h
    simpa using hres

/-- Witness for c1 at one successful POST from the initial state. -/
theorem c1_server_counter_invariant_witness :
    (mkPostLog 1 "t" reqEmpty [] decZero).serverCount = 0 + 1 ∧
    strContains (mkPostResp "N/A" 1 "t" decZero).body
      ("Server has now received " ++ toString (0 + 1) ++ " total messages.") = true :=
  c1_server_counter_invariant.2.2.2 [("t", reqEmpty)] 0
    (mkPostLog 1 "t" reqEmpty [] decZero) (mkPostResp "N/A" 1 "t" decZero) rfl

/-- C2 counterexample: a malformed content length, a non-UTF-8 body and
a non-numeric uptime header each make the handler raise instead of
completing with a 200 response. -/
theorem c2_counterexample_malformed_inputs_raise :
    (do_POST "t" reqBadCL 0).2 = Except.error (PyError.valueErrorInt "abc") ∧
    (do_POST "t" reqBadBody 0).2 = Except.error PyError.unicodeDecodeError ∧
    (do_POST "t" reqBadUptime 0).2 = Except.error (PyError.valueErrorFloat "xyz") :=
  ⟨rfl, rfl, rfl⟩

/-- C2 amended: only missing headers are normalized to defaults; a
present non-numeric content length, a non-UTF-8 body, or a present
non-numeric uptime value each raise the corresponding error and produce
no response, although the counter increment is kept. -/
theorem c2_amended_error_propagation (ts : String) (req : Request) (c : Nat) :
    (do_POST ts req c).1 = c + 1 ∧
    (∀ s, headerGet req.headers "Content-Length" = some s → pyInt s = none →
      (do_POST ts req c).2 = Except.error (PyError.valueErrorInt s)) ∧
    (∀ cl : Int, contentLengthOf req = Except.ok cl →
      utf8Decode (readBody cl req.body) = none →
      (do_POST ts req c).2 = Except.error PyError.unicodeDecodeError) ∧
    (∀ (cl : Int) (payload : List Nat), contentLengthOf req = Except.ok cl →
      utf8Decode (readBody cl req.body) = some payload →
      esp32UptimeOf req ≠ "N/A" → pyFloat (esp32UptimeOf req) = none →
      (do_POST ts req c).2 = Except.error (PyError.valueErrorFloat (esp32UptimeOf req))) := by
  refine ⟨rfl, ?_, ?_, ?_⟩
  · intro s hs hp
    have hcl : contentLengthOf req = Except.error (PyError.valueErrorInt s) := by
      simp [contentLengthOf, hs, hp]
    show doPostResult ts req (c + 1) = _
    simp [doPostResult, hcl]
  · intro cl hcl hdec
    show doPostResult ts req (c + 1) = _
    simp [doPostResult, hcl, hdec]
  · intro cl payload hcl hdec hne hpf
    have hu : uptimeSecondsOf (esp32UptimeOf req) =
        Except.error (PyError.valueErrorFloat (esp32UptimeOf req)) := by
      simp [uptimeSecondsOf, hne, hpf]
    show doPostResult ts req (c + 1) = _
    simp [doPostResult, hcl, hdec, hu]

/-- Witness for c2 amended at the malformed content length request. -/
theorem c2_amended_error_propagation_witness :
    (do_POST "s" reqBadCL 5).2 = Except.error (PyError.valueErrorInt "abc") :=
  (c2_amended_error_propagation "s" reqBadCL 5).2.1 "abc" rfl rfl

/-- C5: the handler reads exactly the declared number of bytes when the
header is present, parseable and covered by the stream, treats an
absent header as zero, and a POST with content length zero and empty
body still increments the counter and answers 200 with the sentinel
defaults. -/
theorem c5_content_length_read (ts : String) (req : Request) (c : Nat) :
    (∀ (s : String) (n : Int), headerGet req.headers "Content-Length" = some s →
      pyInt s = some n → 0 ≤ n → n.toNat ≤ req.body.length →
      contentLengthOf req = Except.ok n ∧
      readBody n req.body = req.body.take n.toNat ∧
      (readBody n req.body).length = n.toNat) ∧
    (headerGet req.headers "Content-Length" = none →
      contentLengthOf req = Except.ok 0 ∧ readBody 0 req.body = []) ∧
    (do_POST ts reqCL0 c =
      (c + 1, Except.ok (mkPostLog (c + 1) ts reqCL0 [] decZero,
        mkPostResp "N/A" (c + 1) ts decZero)) ∧
      (mkPostResp "N/A" (c + 1) ts decZero).status = 200 ∧
      (mkPostLog (c + 1) ts reqCL0 [] decZero).uptimeFormatted = "0.000" ∧
      (mkPostLog (c + 1) ts reqCL0 [] decZero).esp32Counter = "N/A") := by
  refine ⟨?_, ?_, ?_⟩
  · intro s n hs hn h0 hlen
    have hnneg : ¬ n < 0 := Int.not_lt.mpr h0
    refine ⟨by simp [contentLengthOf, hs, hn], by simp [readBody, hnneg], ?_⟩
    simp only [readBody, if_neg hnneg]
    rw [List.length_take]
    exact Nat.min_eq_left hlen
  · intro hnone
    exact ⟨by simp [contentLengthOf, hnone], by simp [readBody]⟩
  · refine ⟨rfl, rfl, ?_, rfl⟩
    show formatFixed3 decZero = "0.000"
    exact formatFixed3_zero

/-- Witness for c5 at a request with declared length two and three
available bytes, and at the empty request. -/
theorem c5_content_length_read_witness :
    (contentLengthOf reqCL2 = Except.ok 2 ∧
      readBody 2 reqCL2.body = reqCL2.body.take (2 : Int).toNat ∧
      (readBody 2 reqCL2.body).length = (2 : Int).toNat) ∧
    (contentLengthOf reqEmpty = Except.ok 0 ∧ readBody 0 reqEmpty.body = []) :=
  ⟨(c5_content_length_read "t" reqCL2 0).1 "2" 2 rfl rfl (by decide) (by decide),
   (c5_content_length_read "t" reqEmpty 0).2.1 rfl⟩

/-- C7: every GET request, whatever its path, returns status 200 with
content type text/html and the static status page, and leaves the
counter unchanged; the response does not depend on the request at all. -/
theorem c7_get_static_page (ts : String) (req req2 : Request) (c : Nat) (p : String) :
    (do_GET ts req c).1 = c ∧
    (do_GET ts req c).2.2.status = 200 ∧
    (do_GET ts req c).2.2.contentType = "text/html" ∧
    (do_GET ts req c).2.2.body = htmlPage ts ∧
    (do_GET ts { req with path := p } c).2.2 = (do_GET ts req c).2.2 ∧
    (do_GET ts req2 c).2.2 = (do_GET ts req c).2.2 :=
  ⟨rfl, rfl, rfl, rfl, rfl, rfl⟩

/-- A POST request whose two body bytes decode to one character. -/
def reqAccent : Request := { path := "/", headers := [("Content-Length", "2")], body := [195, 169] }

/-- C8: the log reports the number of decoded characters, not the
number of body bytes, although the printed label says bytes: a two byte
body decoding to one character is logged with length one. -/
theorem c8_length_is_chars_not_bytes :
    (do_POST "t" reqAccent 0).2 =
      Except.ok (mkPostLog 1 "t" reqAccent [233] decZero,
        mkPostResp "N/A" 1 "t" decZero) ∧
    (mkPostLog 1 "t" reqAccent [233] decZero).msgLength = 1 ∧
    (readBody 2 reqAccent.body).length = 2 :=
  ⟨rfl, rfl, rfl⟩

/-- C3 counterexample: a present uptime header that does not parse as a
number makes the handler raise, rather than being reported as 0.000. -/
theorem c3_counterexample_unparseable_uptime_raises :
    (do_POST "u" reqBadUptime 3).2 = Except.error (PyError.valueErrorFloat "xyz") := rfl

/-- C3 amended: an absent uptime header is substituted by zero and
reported as 0.000 in both the log record and the response body; a
present but unparseable header instead raises, and no response is
produced for such a request. -/
theorem c3_amended_uptime_default (ts : String) (req : Request) (c : Nat) :
    (headerGet req.headers "X-ESP32-Uptime-MS" = none →
      uptimeSecondsOf (esp32UptimeOf req) = Except.ok decZero ∧
      ∀ (log : PostLog) (resp : Response), (do_POST ts req c).2 = Except.ok (log, resp) →
        log.uptimeFormatted = "0.000" ∧
        strContains resp.body "ESP32 uptime: 0.000 seconds" = true) ∧
    (∀ s, headerGet req.headers "X-ESP32-Uptime-MS" = some s → s ≠ "N/A" →
      pyFloat s = none →
      uptimeSecondsOf s = Except.error (PyError.valueErrorFloat s) ∧
      ∀ (log : PostLog) (resp : Response), (do_POST ts req c).2 ≠ Except.ok (log, resp)) := by
  constructor
  · intro hna
    have hu : esp32UptimeOf req = "N/A" := by simp [esp32UptimeOf, hna]
    refine ⟨by rw [hu]; exact rfl, ?_⟩
    intro log resp h
    exact uptime_na_fields hu h
  · intro s hs hne hpf
    have hu : esp32UptimeOf req = s := by simp [esp32UptimeOf, hs]
    have herr : uptimeSecondsOf s = Except.error (PyError.valueErrorFloat s) := by
      simp [uptimeSecondsOf, hne, hpf]
    refine ⟨herr, ?_⟩
    intro log resp h
    obtain ⟨cl, payload, u, hcl, hdec, huok, hlog, hresp⟩ := doPostResult_ok h
    rw [hu, herr] at huok
    exact Except.noConfusion huok

/-- Witness for c3 amended at the empty request. -/
theorem c3_amended_uptime_default_witness :
    (mkPostLog 1 "t" reqEmpty [] decZero).uptimeFormatted = "0.000" ∧
    strContains (mkPostResp "N/A" 1 "t" decZero).body "ESP32 uptime: 0.000 seconds" = true :=
  ((c3_amended_uptime_default "t" reqEmpty 0).1 rfl).2
    (mkPostLog 1 "t" reqEmpty [] decZero) (mkPostResp "N/A" 1 "t" decZero) rfl

/-- A POST request reporting 2500 milliseconds of uptime. -/
def req2500 : Request := { path := "/", headers := [("X-ESP32-Uptime-MS", "2500")], body := [] }

/-- C4: a present parseable uptime value is divided by exactly 1000 and
displayed with three decimals in the log and in the response; the value
2500 is displayed as 2.500. -/
theorem c4_uptime_conversion (ts : String) (req : Request) (c : Nat) (q : Dec)
    (hne : esp32UptimeOf req ≠ "N/A")
    (hq : pyFloat (esp32UptimeOf req) = some q) :
    uptimeSecondsOf (esp32UptimeOf req) = Except.ok (div1000 q) ∧
    (div1000 q).toRat = q.toRat / 1000 ∧
    (∀ (log : PostLog) (resp : Response), (do_POST ts req c).2 = Except.ok (log, resp) →
      log.uptimeFormatted = formatFixed3 (div1000 q) ∧
      strContains resp.body
        ("ESP32 uptime: " ++ formatFixed3 (div1000 q) ++ " seconds") = true) ∧
    pyFloat "2500" = some { m := 2500, e := 0 } ∧
    formatFixed3 (div1000 { m := 2500, e := 0 }) = "2.500" := by
  refine ⟨by simp [uptimeSecondsOf, hne, hq], toRat_div1000 q, ?_, by decide, by decide⟩
  intro log resp h
  obtain ⟨cl, payload, u, hcl, hdec, huok, hlog, hresp⟩ := doPostResult_ok h
  have huu : uptimeSecondsOf (esp32UptimeOf req) = Except.ok (div1000 q) := by
    simp [uptimeSecondsOf, hne, hq]
  rw [huu] at huok
  injection huok with h0
  subst h0
  constructor
  · rw [hlog]
    rfl
  · rw [hresp]
    apply strContains_intro _ _
      ((("✅ Message #" ++ esp32CounterOf req ++ " received successfully by your computer!\n📊 ") ++
        ("Server has now received " ++ toString (c + 1) ++ " total messages.") ++
        ("\n⏰ Received at: " ++ ts ++ "\n🎯 ")).data) []
    simp [mkPostResp, respBody, data_append, List.append_assoc]

/-- Witness for c4 at the literal header value 2500. -/
theorem c4_uptime_conversion_witness :
    uptimeSecondsOf (esp32UptimeOf req2500) = Except.ok (div1000 { m := 2500, e := 0 }) ∧
    formatFixed3 (div1000 { m := 2500, e := 0 }) = "2.500" ∧
    (mkPostLog 1 "t" req2500 [] (div1000 { m := 2500, e := 0 })).uptimeFormatted =
      formatFixed3 (div1000 { m := 2500, e := 0 }) :=
  ⟨(c4_uptime_conversion "t" req2500 0 { m := 2500, e := 0 } (by decide) rfl).1,
   (c4_uptime_conversion "t" req2500 0 { m := 2500, e := 0 } (by decide) rfl).2.2.2.2,
   ((c4_uptime_conversion "t" req2500 0 { m := 2500, e := 0 } (by decide) rfl).2.2.1
      (mkPostLog 1 "t" req2500 [] (div1000 { m := 2500, e := 0 }))
      (mkPostResp "N/A" 1 "t" (div1000 { m := 2500, e := 0 })) rfl).1⟩

/-- C6: the changing data scan splits the decoded payload on line feed
characters, keeps exactly the lines whose lower-cased form contains one
of the six keywords, and logs at most the first five of them, stripped,
in original payload order; concretely, a five line body containing the
line Random value: 42 surfaces exactly that line, and six matching
lines are logged as the first five. -/
theorem c6_changing_data_scan (ts : String) (req : Request) (c : Nat)
    (log : PostLog) (resp : Response)
    (h : (do_POST ts req c).2 = Except.ok (log, resp)) :
    log.changingData = ((splitNl log.payload).filter lineMatches).map (stripEnds isWsCp) ∧
    (∀ line : List Nat, lineMatches line = true ↔
      ∃ kw, kw ∈ keywords ∧ ∃ l1 l2, line.map lowerCp = l1 ++ (kw ++ l2)) ∧
    log.loggedChanging = log.changingData.take 5 ∧
    log.loggedChanging.length ≤ 5 ∧
    List.Sublist log.changingData ((splitNl log.payload).map (stripEnds isWsCp)) ∧
    changingOf (strCps "Random value: 42\nalpha\nbeta\ngamma\ndelta") =
      [strCps "Random value: 42"] ∧
    (changingOf (strCps "counter1\ncounter2\ncounter3\ncounter4\ncounter5\ncounter6")).take 5 =
      [strCps "counter1", strCps "counter2", strCps "counter3",
       strCps "counter4", strCps "counter5"] := by
  obtain ⟨cl, payload, u, hcl, hdec, huok, hlog, hresp⟩ := doPostResult_ok h
  subst hlog
  refine ⟨rfl, ?_, rfl, ?_, ?_, by decide, by decide⟩
  · intro line
    unfold lineMatches
    rw [List.any_eq_true]
    constructor
    · rintro ⟨kw, hkw, hsub⟩
      exact ⟨kw, hkw, (isSub_iff kw (line.map lowerCp)).mp hsub⟩
    · rintro ⟨kw, hkw, hocc⟩
      exact ⟨kw, hkw, (isSub_iff kw (line.map lowerCp)).mpr hocc⟩
  · show ((changingOf payload).take 5).length ≤ 5
    rw [List.length_take]
    exact Nat.min_le_left 5 _
  · show List.Sublist (changingOf payload) ((splitNl payload).map (stripEnds isWsCp))
    unfold changingOf
    exact List.Sublist.map (stripEnds isWsCp) (List.filter_sublist (splitNl payload))

/-- A POST request whose body contains one keyword line. -/
def reqScan : Request :=
  { path := "/", headers := [("Content-Length", "20")], body := strCps "Random value: 42\nfoo" }

/-- Witness for c6 at a body with a matching line. -/
theorem c6_changing_data_scan_witness :
    (mkPostLog 1 "t" reqScan (strCps "Random value: 42\nfoo") decZero).loggedChanging =
      (mkPostLog 1 "t" reqScan (strCps "Random value: 42\nfoo") decZero).changingData.take 5 ∧
    (mkPostLog 1 "t" reqScan (strCps "Random value: 42\nfoo") decZero).loggedChanging.length ≤ 5 :=
  ⟨(c6_changing_data_scan "t" reqScan 0
      (mkPostLog 1 "t" reqScan (strCps "Random value: 42\nfoo") decZero)
      (mkPostResp "N/A" 1 "t" decZero) rfl).2.2.1,
   (c6_changing_data_scan "t" reqScan 0
      (mkPostLog 1 "t" reqScan (strCps "Random value: 42\nfoo") decZero)
      (mkPostResp "N/A" 1 "t" decZero) rfl).2.2.2.1⟩

/-- C9: when the device counter header is absent, the sentinel N/A is
used as the echoed counter in the log record and in the response
body. -/
theorem c9_counter_sentinel (ts : String) (req : Request) (c : Nat)
    (log : PostLog) (resp : Response)
    (habs : headerGet req.headers "X-ESP32-Message-Counter" = none)
    (h : (do_POST ts req c).2 = Except.ok (log, resp)) :
    log.esp32Counter = "N/A" ∧
    strContains resp.body "✅ Message #N/A received successfully by your computer!" = true := by
  obtain ⟨cl, payload, u, hcl, hdec, huok, hlog, hresp⟩ := doPostResult_ok h
  have hec : esp32CounterOf req = "N/A" := by simp [esp32CounterOf, habs]
  constructor
  · rw [hlog]
    show esp32CounterOf req = "N/A"
    exact hec
  · rw [hresp, hec]
    apply strContains_intro _ _ []
      ((("\n📊 " : String) ++
        ("Server has now received " ++ toString (c + 1) ++ " total messages.") ++
        ("\n⏰ Received at: " ++ ts ++ "\n🎯 ") ++
        ("ESP32 uptime: " ++ formatFixed3 u ++ " seconds")).data)
    have hs1 : ("✅ Message #N/A received successfully by your computer!" : String).data =
        ("✅ Message #" : String).data ++ (("N/A" : String).data ++
          (" received successfully by your computer!" : String).data) := rfl
    have hs2 : (" received successfully by your computer!\n📊 " : String).data =
        (" received successfully by your computer!" : String).data ++
          ("\n📊 " : String).data := rfl
    rw [hs1]
    simp [mkPostResp, respBody, data_append, List.append_assoc, hs2]

/-- Witness for c9 at the empty request. -/
theorem c9_counter_sentinel_witness :
    (mkPostLog 1 "t" reqEmpty [] decZero).esp32Counter = "N/A" ∧
    strContains (mkPostResp "N/A" 1 "t" decZero).body
      "✅ Message #N/A received successfully by your computer!" = true :=
  c9_counter_sentinel "t" reqEmpty 0
    (mkPostLog 1 "t" reqEmpty [] decZero) (mkPostResp "N/A" 1 "t" decZero) rfl rfl

/-- A POST request carrying the sentinel as the uptime header value. -/
def reqNA : Request := { path := "/", headers := [("X-ESP32-Uptime-MS", "N/A")], body := [] }

/-- C10: an uptime header equal to the literal sentinel N/A is handled
like an absent header: the parse is skipped although the value would
not parse, uptime is zero, the client-observable outcome equals that of
the same request without the header, and any successful response
reports 0.000. -/
theorem c10_na_sentinel (ts : String) (req : Request) (c : Nat)
    (hna : headerGet req.headers "X-ESP32-Uptime-MS" = some "N/A") :
    pyFloat "N/A" = none ∧
    uptimeSecondsOf "N/A" = Except.ok decZero ∧
    respOf (do_POST ts req c) = respOf (do_POST ts (dropUptimeHeader req) c) ∧
    (∀ (log : PostLog) (resp : Response), (do_POST ts req c).2 = Except.ok (log, resp) →
      log.uptimeFormatted = "0.000" ∧
      strContains resp.body "ESP32 uptime: 0.000 seconds" = true) := by
  have hu1 : esp32UptimeOf req = "N/A" := by simp [esp32UptimeOf, hna]
  have hu2 : esp32UptimeOf (dropUptimeHeader req) = "N/A" := by
    show (headerGet (removeHeader "X-ESP32-Uptime-MS" req.headers) "X-ESP32-Uptime-MS").getD "N/A" = "N/A"
    rw [headerGet_remove_self]
    rfl
  refine ⟨rfl, rfl, ?_, fun log resp h => uptime_na_fields hu1 h⟩
  have hgcl : headerGet (dropUptimeHeader req).headers "Content-Length" =
      headerGet req.headers "Content-Length" :=
    headerGet_remove_ne "X-ESP32-Uptime-MS" "Content-Length" req.headers (by decide)
  have hgec : headerGet (dropUptimeHeader req).headers "X-ESP32-Message-Counter" =
      headerGet req.headers "X-ESP32-Message-Counter" :=
    headerGet_remove_ne "X-ESP32-Uptime-MS" "X-ESP32-Message-Counter" req.headers (by decide)
  have hcl : contentLengthOf req = contentLengthOf (dropUptimeHeader req) := by
    unfold contentLengthOf
    rw [hgcl]
  have hec : esp32CounterOf req = esp32CounterOf (dropUptimeHeader req) := by
    unfold esp32CounterOf
    rw [hgec]
  show (doPostResult ts req (c + 1)).map Prod.snd =
    (doPostResult ts (dropUptimeHeader req) (c + 1)).map Prod.snd
  exact doPost_map_snd_congr ts (c + 1) req (dropUptimeHeader req) hcl rfl hec
    (hu1.trans hu2.symm)

/-- Witness for c10 at a request whose only header is the sentinel. -/
theorem c10_na_sentinel_witness :
    pyFloat "N/A" = none ∧
    uptimeSecondsOf "N/A" = Except.ok decZero ∧
    respOf (do_POST "t" reqNA 0) = respOf (do_POST "t" (dropUptimeHeader reqNA) 0) :=
  ⟨(c10_na_sentinel "t" reqNA 0 rfl).1, (c10_na_sentinel "t" reqNA 0 rfl).2.1,
   (c10_na_sentinel "t" reqNA 0 rfl).2.2.1⟩
